import Mathlib

/-!
# Verification of the finanzas-familiares extraction pipeline

Shallow embedding of the core logic of `src/app.py` (a Streamlit app that
extracts transactions from Chilean bank statements / payslips, reconciles a
declared total, classifies categories and merges into a ledger).

Modelling conventions:
* Python strings are `List Char`; `str.upper`/`lower`/`strip` are modelled
  for the ASCII-plus-accents alphabet the program manipulates.
* Python floats are `ℚ` (all values the program computes are exact decimals).
* The two `re` patterns used by the extractors are embedded with a small
  backtracking regex engine (`mt`) that enumerates prefix matches in Python's
  backtracking priority order; `reSearch` is Python `re.search` (leftmost
  match, first alternative in priority order wins).
* pandas `DataFrame`s of transactions are `List Transaction`;
  `drop_duplicates(subset=[...], keep='last')` is `drop_duplicates_keep_last`.
-/

namespace Finanzas

/-- Python `\d` (the inputs of this program are ASCII digits). -/
def pyIsDigit (c : Char) : Bool := c.isDigit

/-- Python `\s` on the ASCII range. -/
def pyIsSpace (c : Char) : Bool :=
  c == ' ' || c == '\t' || c == '\n' || c == '\r' || c == '\x0b' || c == '\x0c'

/-- Python `str.upper`, on ASCII plus the accented letters appearing in the
program's string constants. -/
def pyToUpper (c : Char) : Char :=
  if c = 'á' then 'Á' else if c = 'é' then 'É' else if c = 'í' then 'Í'
  else if c = 'ó' then 'Ó' else if c = 'ú' then 'Ú' else if c = 'ñ' then 'Ñ'
  else c.toUpper

/-- Python `str.lower`, on the same alphabet. -/
def pyToLower (c : Char) : Char :=
  if c = 'Á' then 'á' else if c = 'É' then 'é' else if c = 'Í' then 'í'
  else if c = 'Ó' then 'ó' else if c = 'Ú' then 'ú' else if c = 'Ñ' then 'ñ'
  else c.toLower

/-- Python `str.strip()` (strip whitespace at both ends). -/
def pyStrip (s : List Char) : List Char :=
  ((s.dropWhile pyIsSpace).reverse.dropWhile pyIsSpace).reverse

/-- Python `float(s)` on the decimal-literal fragment (optional surrounding
whitespace, optional sign, integer part, optional fractional part) — the
fragment reachable from this program's inputs; `none` models `ValueError`.
Helper: value of a digit string. -/
def digitsVal (ds : List Char) : Nat :=
  ds.foldl (fun a c => 10 * a + (c.toNat - 48)) 0

/-- Unsigned part of `float(s)`: `digits [. digits*] | . digits+`. -/
def pyFloatCore (s : List Char) : Option ℚ :=
  let intPart := s.takeWhile pyIsDigit
  let rest := s.dropWhile pyIsDigit
  match rest with
  | [] => if intPart.isEmpty then none else some (digitsVal intPart)
  | '.' :: frac =>
    if frac.all pyIsDigit && !(intPart.isEmpty && frac.isEmpty) then
      some ((digitsVal intPart : ℚ) + (digitsVal frac : ℚ) / (10 ^ frac.length))
    else none
  | _ => none

/-- Python `float(s)` (decimal-literal fragment). -/
def pyFloat (s : List Char) : Option ℚ :=
  match pyStrip s with
  | '-' :: rest => (pyFloatCore rest).map (fun v => -v)
  | '+' :: rest => pyFloatCore rest
  | t => pyFloatCore t

/-! ## Regex engine

The source uses three `re` patterns.  Their quantifiers all range over
single-character classes, so the embedded syntax restricts quantifiers to
classes; greedy and lazy variants are distinct constructors so that the
backtracking priority Python commits to is represented exactly. -/

/-- Regex fragment used by `app.py`. -/
inductive RE where
  | lit (cs : List Char)
  | cls (p : Char → Bool)
  | optC (p : Char → Bool)
  | plusG (p : Char → Bool)
  | plusL (p : Char → Bool)
  | starL (p : Char → Bool)
  | rep (p : Char → Bool) (lo hi : Nat)
  | seq (a b : RE)
  | alt (a b : RE)
  | grp (n : Nat) (e : RE)

/-- One prefix match: remaining suffix plus captured groups. -/
structure MRes where
  rest : List Char
  caps : List (Nat × List Char)

/-- `[lo, lo+1, …, hi]` (empty when `hi < lo`). -/
def upTo (lo hi : Nat) : List Nat := (List.range (hi + 1)).drop lo

/-- Length of the maximal run of class characters at the head of `s`. -/
def maxRun (p : Char → Bool) (s : List Char) : Nat := (s.takeWhile p).length

/-- All prefix matches of `e` on `s`, in Python backtracking priority order
(the head of the list is the match `re` commits to). -/
def mt : RE → List Char → List MRes
  | .lit cs, s => if cs.isPrefixOf s then [⟨s.drop cs.length, []⟩] else []
  | .cls p, s =>
    match s with
    | [] => []
    | c :: rest => if p c then [⟨rest, []⟩] else []
  | .optC p, s =>
    match s with
    | [] => [⟨s, []⟩]
    | c :: rest => if p c then [⟨rest, []⟩, ⟨s, []⟩] else [⟨s, []⟩]
  | .plusG p, s => ((upTo 1 (maxRun p s)).reverse).map (fun n => ⟨s.drop n, []⟩)
  | .plusL p, s => (upTo 1 (maxRun p s)).map (fun n => ⟨s.drop n, []⟩)
  | .starL p, s => (upTo 0 (maxRun p s)).map (fun n => ⟨s.drop n, []⟩)
  | .rep p lo hi, s =>
    ((upTo lo (min hi (maxRun p s))).reverse).map (fun n => ⟨s.drop n, []⟩)
  | .seq a b, s =>
    (mt a s).flatMap (fun r1 =>
      (mt b r1.rest).map (fun r2 => ⟨r2.rest, r1.caps ++ r2.caps⟩))
  | .alt a b, s => mt a s ++ mt b s
  | .grp n e, s =>
    (mt e s).map (fun r => ⟨r.rest, r.caps ++ [(n, s.take (s.length - r.rest.length))]⟩)

/-- Python `re.search`: try each start position left to right, commit to the
first position that matches, and there to the highest-priority match. -/
def reSearch (e : RE) : List Char → Option (List (Nat × List Char))
  | [] =>
    match mt e [] with
    | r :: _ => some r.caps
    | [] => none
  | c :: rest =>
    match mt e (c :: rest) with
    | r :: _ => some r.caps
    | [] => reSearch e rest

/-- Character class `[\d\.,]`. -/
def isDigitDotComma (c : Char) : Bool := pyIsDigit c || c == '.' || c == ','

/-- Character class `[\d\.]`. -/
def isDigitDot (c : Char) : Bool := pyIsDigit c || c == '.'

/-- Character class matching a date separator, slash or dash. -/
def isDateSep (c : Char) : Bool := c == '/' || c == '-'

/-- Python `.` (any character but newline). -/
def anyChar (c : Char) : Bool := !(c == '\n')

/-- `rx_tx = (\d{2}/\d{2}/\d{2,4})\s+(.+?)\s+(-?\$?\s?[\d\.,]+)` (app.py:90). -/
def rx_tx : RE :=
  .seq (.grp 1 (.seq (.rep pyIsDigit 2 2) (.seq (.lit ['/'])
        (.seq (.rep pyIsDigit 2 2) (.seq (.lit ['/']) (.rep pyIsDigit 2 4))))))
  (.seq (.plusG pyIsSpace)
  (.seq (.grp 2 (.plusL anyChar))
  (.seq (.plusG pyIsSpace)
        (.grp 3 (.seq (.optC (· == '-')) (.seq (.optC (· == '$'))
                 (.seq (.optC pyIsSpace) (.plusG isDigitDotComma))))))))

/-- `rx_total = (TOTAL A PAGAR|MONTO TOTAL).*?(\$?\s?[\d\.,]+)` (app.py:93). -/
def rx_total : RE :=
  .seq (.grp 1 (.alt (.lit "TOTAL A PAGAR".data) (.lit "MONTO TOTAL".data)))
  (.seq (.starL anyChar)
        (.grp 2 (.seq (.optC (· == '$'))
                 (.seq (.optC pyIsSpace) (.plusG isDigitDotComma)))))

/-- `rx` of the generic cartola extractor (app.py:141): date with slash-or-dash
separators (`\d{2} sep \d{2} sep \d{2,4}`), then `\s+(.+?)\s+(-?[\d\.]+)`. -/
def rx_cartola : RE :=
  .seq (.grp 1 (.seq (.rep pyIsDigit 2 2) (.seq (.cls isDateSep)
        (.seq (.rep pyIsDigit 2 2) (.seq (.cls isDateSep) (.rep pyIsDigit 2 4))))))
  (.seq (.plusG pyIsSpace)
  (.seq (.grp 2 (.plusL anyChar))
  (.seq (.plusG pyIsSpace)
        (.grp 3 (.seq (.optC (· == '-')) (.plusG isDigitDot))))))

/-- Python's substring operator `needle in hay`. -/
def pyIn (needle : List Char) : List Char → Bool
  | [] => needle.isPrefixOf []
  | c :: rest => needle.isPrefixOf (c :: rest) || pyIn needle rest

/-! ## Amount normalizer (`parse_monto_chile`, app.py:67-78) -/

/-- The cleaning pipeline of `parse_monto_chile`: drop `$` and spaces, drop
thousands dots, turn a decimal comma into a dot. -/
def monto_clean (monto_str : List Char) : List Char :=
  (((monto_str.filter (fun c => !(c == '$'))).filter (fun c => !(c == ' '))).filter
      (fun c => !(c == '.'))).map (fun c => if c = ',' then '.' else c)

/-- `parse_monto_chile`: normalize a Chilean currency string; the
`try/except` makes any conversion failure yield `0.0`. -/
def parse_monto_chile (monto_str : List Char) : ℚ :=
  match pyFloat (monto_clean monto_str) with
  | some v => v
  | none => 0

/-! ## Data model -/

/-- A ledger row (columns of the DataFrames built in app.py). -/
structure Transaction where
  Fecha : List Char
  Descripcion : List Char
  Monto : ℚ
  Categoria : List Char
  Banco_Origen : List Char
deriving DecidableEq

/-- The source-format tag the CMR extractor stamps on every row (app.py:132). -/
def cmr_source_tag : List Char := "CMR Falabella".data

/-! ## CMR extractor (`extract_cmr_falabella`, app.py:80-135) -/

/-- Captured groups of `re.search(rx_tx, line)`, when any. -/
def rx_tx_groups (line : List Char) : Option (List Char × List Char × List Char) :=
  match reSearch rx_tx line with
  | some caps => some ((caps.lookup 1).getD [], (caps.lookup 2).getD [], (caps.lookup 3).getD [])
  | none => none

/-- Step A of the loop body: the declared total captured from one (already
uppercased) line, when `rx_total` matches it. -/
def cmr_total_of_line_upper (line_upper : List Char) : Option ℚ :=
  match reSearch rx_total line_upper with
  | some caps => some (parse_monto_chile ((caps.lookup 2).getD []))
  | none => none

/-- Declared total captured from a raw line (the loop uppercases first). -/
def cmr_total_of_line (line : List Char) : Option ℚ :=
  cmr_total_of_line_upper (line.map pyToUpper)

/-- `total_detected` update (app.py:99-102): only scanned while the running
total is still `0`. -/
def cmr_update_total (total : ℚ) (line_upper : List Char) : ℚ :=
  if total = 0 then
    match cmr_total_of_line_upper line_upper with
    | some v => v
    | none => total
  else total

/-- Sign normalization (app.py:125): CMR reports expenses positive, the
ledger convention is negative. -/
def fix_sign (m : ℚ) : ℚ := if m > 0 then -m else m

/-- Steps B-C of the loop body: the transaction one line contributes, if it
survives the noise filters, matches `rx_tx`, and its description is not
digits/asterisks/whitespace junk. -/
def cmr_line_tx (line line_upper : List Char) : Option Transaction :=
  if pyIn "****".data line && !(pyIn "COMPRA".data line_upper) then none
  else if pyIn "SALDO ANTERIOR".data line_upper
       || pyIn "PAGO RECIBIDO".data line_upper then none
  else if line.length < 15 then none
  else
    match rx_tx_groups line with
    | none => none
    | some (fecha, d, monto_str) =>
      let desc := pyStrip d
      if !desc.isEmpty && desc.all (fun c => c == '*' || pyIsSpace c || pyIsDigit c) then
        none
      else
        some { Fecha := fecha, Descripcion := desc,
               Monto := fix_sign (parse_monto_chile monto_str),
               Categoria := "Gasto General".data,
               Banco_Origen := cmr_source_tag }

/-- The loop of `extract_cmr_falabella`, carrying `total_detected`. -/
def extract_cmr_go : List (List Char) → ℚ → List Transaction × ℚ
  | [], total => ([], total)
  | line :: ls, total =>
    let total2 := cmr_update_total total (line.map pyToUpper)
    match cmr_line_tx line (line.map pyToUpper) with
    | some tx => ((tx :: (extract_cmr_go ls total2).1), (extract_cmr_go ls total2).2)
    | none => extract_cmr_go ls total2

/-- `extract_cmr_falabella(lines)` returning `(transactions, total_detected)`. -/
def extract_cmr_falabella (lines : List (List Char)) : List Transaction × ℚ :=
  extract_cmr_go lines 0

/-! ## Generic cartola extractor (`extract_banco_generico`, app.py:137-160) -/

/-- Captured groups of `re.search(rx, line)` for the cartola pattern. -/
def rx_cartola_groups (line : List Char) : Option (List Char × List Char × List Char) :=
  match reSearch rx_cartola line with
  | some caps => some ((caps.lookup 1).getD [], (caps.lookup 2).getD [], (caps.lookup 3).getD [])
  | none => none

/-- Loop of `extract_banco_generico`: one transaction per matching line,
skipping lines whose description mentions a balance. -/
def cartola_go (banco_name : List Char) : List (List Char) → List Transaction
  | [] => []
  | line :: ls =>
    match rx_cartola_groups line with
    | some (fecha, d, m) =>
      let monto := parse_monto_chile m
      let desc := pyStrip d
      if pyIn "SALDO".data (desc.map pyToUpper) then cartola_go banco_name ls
      else { Fecha := fecha, Descripcion := desc, Monto := monto,
             Categoria := "Gasto General".data, Banco_Origen := banco_name }
           :: cartola_go banco_name ls
    | none => cartola_go banco_name ls

/-- `extract_banco_generico(lines, banco_name)`; the declared total is always
reported as `0.0` for these formats. -/
def extract_banco_generico (lines : List (List Char)) (banco_name : List Char) :
    List Transaction × ℚ :=
  (cartola_go banco_name lines, 0)

/-! ## Payslip extractor (`extract_sueldo_samsonite`, app.py:162-182) -/

/-- `dropWhile` never lengthens a list (termination measure for `findRuns`). -/
theorem dropWhile_length_le (p : Char → Bool) :
    ∀ l : List Char, (l.dropWhile p).length ≤ l.length := by
  intro l
  induction l with
  | nil => simp
  | cons a l ih =>
    rw [List.dropWhile_cons]
    split
    · exact Nat.le_succ_of_le ih
    · simp

/-- `re.findall` for a single-character-class `+` pattern: the maximal
nonempty runs of class characters. -/
def findRuns (p : Char → Bool) : List Char → List (List Char)
  | [] => []
  | c :: rest =>
    if p c then (c :: rest.takeWhile p) :: findRuns p (rest.dropWhile p)
    else findRuns p rest
termination_by l => l.length
decreasing_by
  · simpa using Nat.lt_succ_of_le (dropWhile_length_le p rest)
  · simp

/-- Loop of `extract_sueldo_samsonite`: on the first net-pay label line that
contains numeric tokens, emit a single income transaction (dated with the
processing date, which the caller supplies as `today`) and stop. -/
def sueldo_go (today : List Char) : List (List Char) → List Transaction
  | [] => []
  | line :: ls =>
    let lu := line.map pyToUpper
    if pyIn "LÍQUIDO A PAGO".data lu || pyIn "A PAGAR".data lu then
      match (findRuns isDigitDot (line.map (fun c => if c = ',' then '.' else c))).getLast? with
      | some lastNum =>
        [{ Fecha := today, Descripcion := "Sueldo Samsonite".data,
           Monto := |parse_monto_chile lastNum|,
           Categoria := "Ingreso Familiar".data, Banco_Origen := "Liquidación".data }]
      | none => sueldo_go today ls
    else sueldo_go today ls

/-- `extract_sueldo_samsonite(lines)`; `pd.Timestamp.now()` is modelled by the
explicit `today` parameter. -/
def extract_sueldo_samsonite (today : List Char) (lines : List (List Char)) :
    List Transaction × ℚ :=
  (sueldo_go today lines, 0)

/-! ## Format detection and dispatch (`process_pdf`, app.py:184-203)

Only the pure part after PDF text extraction is modelled: the full document
text (as produced by the pdfplumber collaborator) comes in as a string. -/

/-- The dispatch of `process_pdf` on the full document text: split into lines,
lowercase the whole text, and run the first extractor whose keywords occur. -/
def process_pdf_text (today full_text : List Char) : List Transaction × ℚ :=
  let lines := full_text.splitOn '\n'
  let lower_text := full_text.map pyToLower
  if pyIn "falabella".data lower_text || pyIn "cmr".data lower_text then
    extract_cmr_falabella lines
  else if pyIn "santander".data lower_text then
    extract_banco_generico lines "Banco Santander".data
  else if pyIn "bci".data lower_text then
    extract_banco_generico lines "Banco BCI".data
  else if pyIn "samsonite".data lower_text || pyIn "liquidacion".data lower_text then
    extract_sueldo_samsonite today lines
  else ([], 0)

/-! ## Category rules (`apply_rules`, app.py:208-225) -/

/-- The row-wise `categorize` closure: ordered substring rules on the
uppercased description and source-bank fields, keeping the existing category
when no rule matches. -/
def categorize (row : Transaction) : List Char :=
  let desc := row.Descripcion.map pyToUpper
  let banco := row.Banco_Origen.map pyToUpper
  if pyIn "LIQUIDACIÓN".data banco then "Ingreso Familiar".data
  else if pyIn "MARCELA CONTRERAS".data desc then "Ingreso Familiar".data
  else if pyIn "MARCELO CONTRERAS".data desc then "Arriendo".data
  else if pyIn "EDIPRO".data desc || pyIn "CAROL URZUA".data desc then
    "Gastos Comunes".data
  else if pyIn "TOTUS".data desc || pyIn "LIDER".data desc || pyIn "JUMBO".data desc then
    "Supermercado".data
  else row.Categoria

/-- `apply_rules(df)`: rewrite every row's category (empty frames returned
unchanged). -/
def apply_rules (df : List Transaction) : List Transaction :=
  if df.isEmpty then df
  else df.map (fun r => { r with Categoria := categorize r })

/-! ## Reconciliation widget (app.py:255-273) -/

/-- `diff = abs(abs(total_pdf) - abs(suma_txs))`. -/
def reconcile_diff (total_pdf suma_txs : ℚ) : ℚ := |(|total_pdf| - |suma_txs|)|

/-- `is_valid = diff < 2000` (tolerance of 2000 pesos). -/
def reconcile_is_valid (total_pdf suma_txs : ℚ) : Bool :=
  decide (reconcile_diff total_pdf suma_txs < 2000)

/-- The expander icon is the OK one iff `is_valid or total_pdf == 0`. -/
def reconcile_icon_ok (total_pdf suma_txs : ℚ) : Bool :=
  reconcile_is_valid total_pdf suma_txs || decide (total_pdf = 0)

/-- The mismatch warning is shown iff `total_pdf > 0 and not is_valid`. -/
def reconcile_warns (total_pdf suma_txs : ℚ) : Bool :=
  decide (total_pdf > 0) && !(reconcile_is_valid total_pdf suma_txs)

/-! ## Ledger merge (`save_to_gsheet`, app.py:30-61)

The gspread read/write transport is the external collaborator; the pure merge
in between (concat, `drop_duplicates(subset=['Fecha','Descripción','Monto'],
keep='last')`, and the returned `len(df_final) - len(df_current)`) is
modelled here. -/

/-- The dedup key: `(Fecha, Descripción, Monto)`. -/
def txKey (r : Transaction) : List Char × List Char × ℚ :=
  (r.Fecha, r.Descripcion, r.Monto)

/-- Does some record of `l` collide with `r` on the exact dedup key? -/
def keyDup (r : Transaction) (l : List Transaction) : Bool :=
  l.any (fun x => decide (txKey x = txKey r))

/-- pandas `drop_duplicates(subset=key, keep='last')`: keep a row iff no later
row has the same key (kept rows stay in frame order). -/
def drop_duplicates_keep_last : List Transaction → List Transaction
  | [] => []
  | r :: rs =>
    if keyDup r rs then drop_duplicates_keep_last rs
    else r :: drop_duplicates_keep_last rs

/-- The pure merge of `save_to_gsheet`: returns the rewritten full ledger and
the reported count `len(df_final) - len(df_current)` (an `Int`: nothing stops
it from going negative). -/
def save_to_gsheet_merge (df_current df_new : List Transaction) :
    List Transaction × Int :=
  let df_combined := if df_current.isEmpty then df_new else df_current ++ df_new
  let df_final := drop_duplicates_keep_last df_combined
  (df_final, (df_final.length : Int) - (df_current.length : Int))

/-! ## Claims -/

/-- C1: for the input line `12/12/2023 COMPRA SUPERMERCADO $ 20.000`, the CMR
extractor outputs exactly one transaction with date `12/12/2023`, description
`COMPRA SUPERMERCADO`, amount `-20000`, and the CMR source tag (which the code
renders as the string `CMR Falabella`). -/
theorem claim_C1 :
    extract_cmr_falabella ["12/12/2023 COMPRA SUPERMERCADO $ 20.000".data] =
      ([{ Fecha := "12/12/2023".data, Descripcion := "COMPRA SUPERMERCADO".data,
          Monto := -20000, Categoria := "Gasto General".data,
          Banco_Origen := cmr_source_tag }], 0) := by
  decide

/-- C6: the amount normalizer is total, and whenever numeric conversion of the
cleaned string fails (the `except` path), it returns exactly `0`. -/
theorem claim_C6 (s : List Char) (h : pyFloat (monto_clean s) = none) :
    parse_monto_chile s = 0 := by
  unfold parse_monto_chile
  rw [h]

/-- Witness for C6 at the malformed input `"N/A"`. -/
theorem claim_C6_witness :
    pyFloat (monto_clean "N/A".data) = none ∧ parse_monto_chile "N/A".data = 0 :=
  ⟨by decide, claim_C6 "N/A".data (by decide)⟩

/-- C7 fails as stated: the scan guard is `total_detected == 0`, not a
first-occurrence flag.  Here the first total-label line (`TOTAL A PAGAR $ 0`)
matches and normalizes to `0`, yet the reported declared total is `5000`,
taken from a later total-label line. -/
theorem claim_C7_counterexample :
    cmr_total_of_line "TOTAL A PAGAR $ 0".data = some 0 ∧
    (extract_cmr_falabella
       ["TOTAL A PAGAR $ 0".data, "TOTAL A PAGAR $ 5.000".data]).2 = 5000 ∧
    (5000 : ℚ) ≠ 0 := by
  decide

/-- Declared total the loop actually reports: the normalized amount of the
first total-label-matching line whose normalized amount is nonzero (`0` when
there is no such line). -/
def first_nonzero_total : List (List Char) → ℚ
  | [] => 0
  | l :: ls =>
    match cmr_total_of_line l with
    | some v => if v = 0 then first_nonzero_total ls else v
    | none => first_nonzero_total ls

/-- Invariant of the CMR loop for the running `total_detected`. -/
theorem extract_cmr_go_total (lines : List (List Char)) :
    ∀ total : ℚ, (extract_cmr_go lines total).2
      = if total = 0 then first_nonzero_total lines else total := by
  induction lines with
  | nil =>
    intro total
    simp only [extract_cmr_go, first_nonzero_total]
    split <;> simp_all
  | cons line ls ih =>
    intro total
    have hstep : (extract_cmr_go (line :: ls) total).2
        = (extract_cmr_go ls (cmr_update_total total (line.map pyToUpper))).2 := by
      simp only [extract_cmr_go]
      split <;> rfl
    rw [hstep, ih]
    by_cases h0 : total = 0
    · subst h0
      cases h : cmr_total_of_line_upper (line.map pyToUpper) with
      | none =>
        simp [cmr_update_total, h, first_nonzero_total, cmr_total_of_line]
      | some v =>
        by_cases hv : v = 0 <;>
          simp [cmr_update_total, h, hv, first_nonzero_total, cmr_total_of_line]
    · simp [cmr_update_total, h0]

/-- C7 amended: the reported declared total is the normalized amount of the
first total-label line whose normalized amount is nonzero (the `== 0` guard
means zero-normalizing total lines do not lock the capture); total-label lines
after that first nonzero capture do not change it. -/
theorem claim_C7_amended (lines : List (List Char)) :
    (extract_cmr_falabella lines).2 = first_nonzero_total lines := by
  rw [extract_cmr_falabella, extract_cmr_go_total]
  simp

/-- C4 fails as stated at the tolerance boundary: with a declared total of
`2000` and an extracted sum of `0` the difference is exactly `2000`, which
does not *exceed* the tolerance of `2000`, yet the code (`diff < 2000`)
judges the batch invalid and raises the mismatch warning. -/
theorem claim_C4_counterexample :
    reconcile_warns 2000 0 = true ∧ reconcile_diff 2000 0 = 2000 ∧
    ¬ reconcile_diff 2000 0 > 2000 := by
  refine ⟨?_, ?_, ?_⟩ <;>
    simp [reconcile_warns, reconcile_is_valid, reconcile_diff, abs_of_nonneg]

/-- C4 amended: a zero declared total always yields a valid verdict and no
warning; the mismatch warning is raised only when the declared total is
nonzero and the absolute difference of absolute values is at least the
tolerance of 2000 (validity requires the difference to be strictly below the
tolerance). -/
theorem claim_C4_amended (total_pdf suma_txs : ℚ) :
    (total_pdf = 0 → reconcile_icon_ok total_pdf suma_txs = true
        ∧ reconcile_warns total_pdf suma_txs = false) ∧
    (reconcile_warns total_pdf suma_txs = true →
        total_pdf ≠ 0 ∧ 2000 ≤ reconcile_diff total_pdf suma_txs) := by
  constructor
  · intro h
    subst h
    constructor
    · simp [reconcile_icon_ok]
    · simp [reconcile_warns]
  · intro h
    unfold reconcile_warns at h
    simp only [Bool.and_eq_true, decide_eq_true_eq, Bool.not_eq_true'] at h
    obtain ⟨hpos, hvalid⟩ := h
    refine ⟨ne_of_gt hpos, ?_⟩
    unfold reconcile_is_valid at hvalid
    have := of_decide_eq_false hvalid
    linarith [not_lt.mp this]

/-- Witness for C4 amended: at declared total `2500` and sum `0` the warning
is raised, and indeed the total is nonzero with difference at least 2000. -/
theorem claim_C4_amended_witness :
    (2500 : ℚ) ≠ 0 ∧ (2000 : ℚ) ≤ reconcile_diff 2500 0 :=
  (claim_C4_amended 2500 0).2 (by
    norm_num [reconcile_warns, reconcile_is_valid, reconcile_diff, abs_of_nonneg])

/-- A transaction whose description carries the income-sender token as well as
the rent token and a supermarket token. -/
def c8_cx_row : Transaction :=
  { Fecha := "01/01/2024".data,
    Descripcion := "MARCELA CONTRERAS MARCELO CONTRERAS JUMBO".data,
    Monto := -1000, Categoria := "Gasto General".data,
    Banco_Origen := cmr_source_tag }

/-- C8 fails as stated: this description contains both the rent-payer token
(`MARCELO CONTRERAS`) and a supermarket token (`JUMBO`), yet the assigned
category is `Ingreso Familiar`, because the still-earlier income-sender rule
(`MARCELA CONTRERAS`) matches first. -/
theorem claim_C8_counterexample :
    pyIn "MARCELO CONTRERAS".data (c8_cx_row.Descripcion.map pyToUpper) = true ∧
    pyIn "JUMBO".data (c8_cx_row.Descripcion.map pyToUpper) = true ∧
    categorize c8_cx_row = "Ingreso Familiar".data ∧
    categorize c8_cx_row ≠ "Arriendo".data := by
  decide

/-- C8 amended: rules are applied in fixed order with first match winning, so
a transaction whose description contains both a supermarket token and the
rent-payer token is assigned the rent category, provided no earlier rule
matches (the source bank is not a payslip and the description lacks the
income-sender token). -/
theorem claim_C8_amended (r : Transaction)
    (hb : pyIn "LIQUIDACIÓN".data (r.Banco_Origen.map pyToUpper) = false)
    (hma : pyIn "MARCELA CONTRERAS".data (r.Descripcion.map pyToUpper) = false)
    (hrent : pyIn "MARCELO CONTRERAS".data (r.Descripcion.map pyToUpper) = true)
    (hsuper : (pyIn "TOTUS".data (r.Descripcion.map pyToUpper)
            || pyIn "LIDER".data (r.Descripcion.map pyToUpper)
            || pyIn "JUMBO".data (r.Descripcion.map pyToUpper)) = true) :
    categorize r = "Arriendo".data := by
  simp [categorize, hb, hma, hrent]

/-- Witness for C8 amended at a concrete row. -/
theorem claim_C8_amended_witness :
    categorize
      { Fecha := "01/01/2024".data,
        Descripcion := "PAGO MARCELO CONTRERAS JUMBO".data,
        Monto := -1000, Categoria := "Gasto General".data,
        Banco_Origen := cmr_source_tag } = "Arriendo".data :=
  claim_C8_amended _ (by decide) (by decide) (by decide) (by decide)

/-- Two rows with distinct dedup keys, used to exhibit C10. -/
def c10_row_a : Transaction :=
  { Fecha := "01/01/2024".data, Descripcion := "COMPRA LIDER".data,
    Monto := -5000, Categoria := "Gasto General".data,
    Banco_Origen := cmr_source_tag }

/-- Second row for C10, with a different key. -/
def c10_row_b : Transaction :=
  { Fecha := "02/01/2024".data, Descripcion := "COMPRA JUMBO".data,
    Monto := -3000, Categoria := "Gasto General".data,
    Banco_Origen := cmr_source_tag }

/-- C10: the merge also collapses key-duplicates internal to the existing
ledger (and to the new batch): with a ledger holding the same row three times
and a one-row batch, the merged set (2 rows) is smaller than the ledger
(3 rows) and the reported added-count is `-1`; likewise duplicates inside the
batch itself are collapsed. -/
theorem claim_C10 :
    (save_to_gsheet_merge [c10_row_a, c10_row_a, c10_row_a] [c10_row_b]).1
        = [c10_row_a, c10_row_b] ∧
    ((save_to_gsheet_merge [c10_row_a, c10_row_a, c10_row_a] [c10_row_b]).1).length
        < ([c10_row_a, c10_row_a, c10_row_a] : List Transaction).length ∧
    (save_to_gsheet_merge [c10_row_a, c10_row_a, c10_row_a] [c10_row_b]).2 < 0 ∧
    (save_to_gsheet_merge [c10_row_a] [c10_row_b, c10_row_b]).1
        = [c10_row_a, c10_row_b] := by
  decide

/-- The sign normalization never produces a positive amount. -/
theorem fix_sign_nonpos (m : ℚ) : fix_sign m ≤ 0 := by
  unfold fix_sign
  split
  next h => linarith
  next h => exact not_lt.mp h

/-- Any transaction a single CMR line contributes has nonpositive amount. -/
theorem cmr_line_tx_monto_nonpos (line line_upper : List Char) (tx : Transaction)
    (h : cmr_line_tx line line_upper = some tx) : tx.Monto ≤ 0 := by
  simp only [cmr_line_tx] at h
  repeat' split at h
  any_goals exact Option.noConfusion h
  injection h with h2
  subst h2
  exact fix_sign_nonpos _

/-- Loop invariant for C5 over the whole line sequence. -/
theorem extract_cmr_go_monto_nonpos (lines : List (List Char)) :
    ∀ (total : ℚ) (t : Transaction),
      t ∈ (extract_cmr_go lines total).1 → t.Monto ≤ 0 := by
  induction lines with
  | nil => intro total t h; simp [extract_cmr_go] at h
  | cons line ls ih =>
    intro total t h
    simp only [extract_cmr_go] at h
    split at h
    next tx heq =>
      rcases List.mem_cons.mp h with rfl | hmem
      · exact cmr_line_tx_monto_nonpos _ _ _ heq
      · exact ih _ _ hmem
    next => exact ih _ _ h

/-- C5: every transaction emitted by the CMR extractor has a nonpositive
amount — a positive normalized amount is negated before the row is emitted,
so expenses are negative for every input line sequence. -/
theorem claim_C5 (lines : List (List Char)) (t : Transaction)
    (h : t ∈ (extract_cmr_falabella lines).1) : t.Monto ≤ 0 :=
  extract_cmr_go_monto_nonpos lines 0 t h

/-- The row the C5 witness checks. -/
def c5_w_row : Transaction :=
  { Fecha := "12/12/2023".data, Descripcion := "COMPRA SUPERMERCADO".data,
    Monto := -20000, Categoria := "Gasto General".data,
    Banco_Origen := cmr_source_tag }

/-- Witness for C5 on a concrete extracted batch. -/
theorem claim_C5_witness : c5_w_row.Monto ≤ 0 :=
  claim_C5 ["12/12/2023 COMPRA SUPERMERCADO $ 20.000".data] c5_w_row (by decide)

/-- Re-categorizing a freshly categorized row changes nothing: the rule
conditions only read the description and source-bank fields, and the default
branch propagates the already-assigned category. -/
theorem categorize_stable (r : Transaction) :
    categorize { r with Categoria := categorize r } = categorize r := by
  rcases r with ⟨f, d, m, c, b⟩
  simp only [categorize]
  split_ifs <;> rfl

/-- C9: classification is idempotent — re-running `apply_rules` on an
already-classified batch changes no field. -/
theorem claim_C9 (df : List Transaction) :
    apply_rules (apply_rules df) = apply_rules df := by
  unfold apply_rules
  by_cases h : df.isEmpty
  · simp [h]
  · have h2 : (df.map (fun r => { r with Categoria := categorize r })).isEmpty = false := by
      cases df
      · simp at h
      · simp
    simp only [h, Bool.false_eq_true, if_false, h2, List.map_map]
    refine List.map_congr_left (fun r _ => ?_)
    simp [Function.comp, categorize_stable r]

/-- C3: format detection is case-insensitive (it operates on the lowercased
text) and priority-ordered — any document text containing both a `cmr` token
and a `santander` token dispatches to the CMR extractor, because the
falabella-or-cmr rule is checked first. -/
theorem claim_C3 (today full_text : List Char)
    (hcmr : pyIn "cmr".data (full_text.map pyToLower) = true)
    (hsant : pyIn "santander".data (full_text.map pyToLower) = true) :
    process_pdf_text today full_text
      = extract_cmr_falabella (full_text.splitOn '\n') := by
  unfold process_pdf_text
  simp [hcmr]

/-- Witness for C3 on a document text containing both tokens. -/
theorem claim_C3_witness :
    process_pdf_text "01/01/2024".data "Estado CMR Banco Santander".data
      = extract_cmr_falabella ("Estado CMR Banco Santander".data.splitOn '\n') :=
  claim_C3 "01/01/2024".data "Estado CMR Banco Santander".data (by decide) (by decide)

/-! ### C2: merge arithmetic -/

/-- A batch has pairwise-distinct dedup keys (the spec's Ledger is a set
keyed by `(date, description, amount)`). -/
def keysNodup (l : List Transaction) : Prop := (l.map txKey).Nodup

/-- Boolean membership in a key list. -/
def keyMem (k : List Char × List Char × ℚ)
    (ks : List (List Char × List Char × ℚ)) : Bool :=
  ks.any (fun x => decide (x = k))

/-- `keyMem` decides list membership. -/
theorem keyMem_eq_true_iff (k : List Char × List Char × ℚ)
    (ks : List (List Char × List Char × ℚ)) :
    keyMem k ks = true ↔ k ∈ ks := by
  constructor
  · intro h
    obtain ⟨x, hx, he⟩ := List.any_eq_true.mp h
    rw [← of_decide_eq_true he]
    exact hx
  · intro h
    exact List.any_eq_true.mpr ⟨k, h, decide_eq_true rfl⟩

/-- `keyDup` is key-list membership of the row's own key. -/
theorem keyDup_eq_keyMem (r : Transaction) (l : List Transaction) :
    keyDup r l = keyMem (txKey r) (l.map txKey) := by
  induction l with
  | nil => rfl
  | cons x xs ih =>
    simp only [keyDup, keyMem, List.map_cons, List.any_cons] at ih ⊢
    rw [ih]

/-- `keyDup` detects exactly key-list membership. -/
theorem keyDup_eq_true_iff (r : Transaction) (l : List Transaction) :
    keyDup r l = true ↔ txKey r ∈ l.map txKey := by
  rw [keyDup_eq_keyMem]
  exact keyMem_eq_true_iff _ _

/-- On a batch with pairwise-distinct keys, keep-last dedup is the identity. -/
theorem dedup_of_keysNodup :
    ∀ l : List Transaction, keysNodup l → drop_duplicates_keep_last l = l := by
  intro l
  induction l with
  | nil => intro _; rfl
  | cons r rs ih =>
    intro h
    unfold keysNodup at h
    rw [List.map_cons, List.nodup_cons] at h
    obtain ⟨hnot, hrest⟩ := h
    have hkd : keyDup r rs = false := by
      rw [Bool.eq_false_iff]
      intro hc
      exact hnot ((keyDup_eq_true_iff _ _).mp hc)
    rw [drop_duplicates_keep_last, hkd]
    simp [ih hrest]

/-- Keep-last dedup of `existing ++ new` with internally-distinct keys on
both sides: existing rows whose key reappears in the batch are dropped (the
batch copy — the last occurrence — survives), and the batch passes through. -/
theorem dedup_append (ex nw : List Transaction)
    (h1 : keysNodup ex) (h2 : keysNodup nw) :
    drop_duplicates_keep_last (ex ++ nw)
      = ex.filter (fun r => !keyDup r nw) ++ nw := by
  induction ex with
  | nil => simpa using dedup_of_keysNodup nw h2
  | cons r rs ih =>
    unfold keysNodup at h1
    rw [List.map_cons, List.nodup_cons] at h1
    obtain ⟨hnot, hrest⟩ := h1
    have hkdrs : keyDup r rs = false := by
      rw [Bool.eq_false_iff]
      intro hc
      exact hnot ((keyDup_eq_true_iff _ _).mp hc)
    have hcond : keyDup r (rs ++ nw) = keyDup r nw := by
      simp only [keyDup, List.any_append]
      rw [show rs.any (fun x => decide (txKey x = txKey r)) = keyDup r rs from rfl, hkdrs]
      simp
    rw [List.cons_append, drop_duplicates_keep_last, hcond]
    cases hknw : keyDup r nw with
    | true => simp [List.filter_cons, hknw, ih hrest]
    | false => simp [List.filter_cons, hknw, ih hrest]

/-- Filtering by a predicate on the image commutes with mapping, up to
length. -/
theorem length_filter_comp {α β : Type*} (f : α → β) (p : β → Bool) (l : List α) :
    ((l.map f).filter p).length = (l.filter (fun x => p (f x))).length := by
  induction l with
  | nil => rfl
  | cons a l ih => by_cases h : p (f a) <;> simp [List.filter_cons, h, ih]

/-- For duplicate-free lists, counting elements of one list that occur in the
other (membership tested by any boolean deciding `∈`) is symmetric: both
sides count the common elements. -/
theorem length_filter_mem_comm {α : Type*} [DecidableEq α]
    (m : α → List α → Bool) (hm : ∀ (a : α) (l : List α), m a l = true ↔ a ∈ l)
    (l1 l2 : List α) (h1 : l1.Nodup) (h2 : l2.Nodup) :
    (l1.filter (fun a => m a l2)).length = (l2.filter (fun a => m a l1)).length := by
  have key : ∀ p q : List α, p.Nodup →
      (p.filter (fun a => m a q)).length = (p.toFinset ∩ q.toFinset).card := by
    intro p q hp
    have hnd : (p.filter (fun a => m a q)).Nodup := hp.filter _
    rw [← List.toFinset_card_of_nodup hnd]
    congr 1
    ext a
    simp [List.mem_toFinset, List.mem_filter, hm]
  rw [key l1 l2 h1, key l2 l1 h2, Finset.inter_comm]

/-- A filter and its negation partition the length. -/
theorem length_filter_split {α : Type*} (p : α → Bool) (l : List α) :
    (l.filter p).length + (l.filter (fun x => !p x)).length = l.length := by
  induction l with
  | nil => rfl
  | cons a l ih => by_cases h : p a <;> simp [List.filter_cons, h, ← ih] <;> omega

/-- The collision count is symmetric between ledger and batch when each side
has internally distinct keys. -/
theorem collision_count_symm (ex nw : List Transaction)
    (h1 : keysNodup ex) (h2 : keysNodup nw) :
    (ex.filter (fun r => keyDup r nw)).length
      = (nw.filter (fun r => keyDup r ex)).length := by
  have hx : (ex.filter (fun r => keyDup r nw)).length
      = ((ex.map txKey).filter (fun k => keyMem k (nw.map txKey))).length := by
    simp only [keyDup_eq_keyMem]
    exact (length_filter_comp txKey (fun k => keyMem k (nw.map txKey)) ex).symm
  have hn : (nw.filter (fun r => keyDup r ex)).length
      = ((nw.map txKey).filter (fun k => keyMem k (ex.map txKey))).length := by
    simp only [keyDup_eq_keyMem]
    exact (length_filter_comp txKey (fun k => keyMem k (ex.map txKey)) nw).symm
  rw [hx, hn]
  exact length_filter_mem_comm keyMem keyMem_eq_true_iff _ _ h1 h2

/-- C2: merging a ledger of `N` key-distinct records with a batch of `M`
key-distinct records of which `K` collide with the ledger keeps, for each
collision, the last occurrence (the batch copy), yields `N + M - K` records,
and reports `addedCount = M - K`. -/
theorem claim_C2 (ex nw : List Transaction)
    (h1 : keysNodup ex) (h2 : keysNodup nw) :
    (save_to_gsheet_merge ex nw).1 = ex.filter (fun r => !keyDup r nw) ++ nw ∧
    ((save_to_gsheet_merge ex nw).1).length
      = ex.length + nw.length - (nw.filter (fun r => keyDup r ex)).length ∧
    (save_to_gsheet_merge ex nw).2
      = (nw.length : Int) - ((nw.filter (fun r => keyDup r ex)).length : Int) := by
  have hcomb : (if ex.isEmpty then nw else ex ++ nw) = ex ++ nw := by
    cases ex <;> simp
  have hmerged : (save_to_gsheet_merge ex nw).1
      = ex.filter (fun r => !keyDup r nw) ++ nw := by
    simp only [save_to_gsheet_merge, hcomb]
    exact dedup_append ex nw h1 h2
  have hsplit := length_filter_split (fun r => keyDup r nw) ex
  have hsym := collision_count_symm ex nw h1 h2
  have hlen : ((save_to_gsheet_merge ex nw).1).length
      = (ex.filter (fun r => !keyDup r nw)).length + nw.length := by
    rw [hmerged, List.length_append]
  refine ⟨hmerged, ?_, ?_⟩
  · omega
  · have hsnd : (save_to_gsheet_merge ex nw).2
        = (((save_to_gsheet_merge ex nw).1).length : Int) - (ex.length : Int) := by
      simp [save_to_gsheet_merge]
    rw [hsnd]
    omega

/-- Ledger row for the C2 witness. -/
def c2_old_row : Transaction :=
  { Fecha := "03/03/2024".data, Descripcion := "COMPRA TOTUS".data,
    Monto := -7000, Categoria := "Gasto General".data,
    Banco_Origen := cmr_source_tag }

/-- Batch row with the same key as `c2_old_row` but a refreshed category. -/
def c2_dup_row : Transaction :=
  { c2_old_row with Categoria := "Supermercado".data }

/-- Batch row with a fresh key. -/
def c2_new_row : Transaction :=
  { Fecha := "04/03/2024".data, Descripcion := "COMPRA JUMBO".data,
    Monto := -2000, Categoria := "Gasto General".data,
    Banco_Origen := cmr_source_tag }

/-- Witness for C2: one-record ledger, two-record batch with one collision
(`N = 1`, `M = 2`, `K = 1`). -/
theorem claim_C2_witness :
    (save_to_gsheet_merge [c2_old_row] [c2_dup_row, c2_new_row]).1
      = [c2_old_row].filter (fun r => !keyDup r [c2_dup_row, c2_new_row])
        ++ [c2_dup_row, c2_new_row] ∧
    ((save_to_gsheet_merge [c2_old_row] [c2_dup_row, c2_new_row]).1).length
      = [c2_old_row].length + [c2_dup_row, c2_new_row].length
        - ([c2_dup_row, c2_new_row].filter (fun r => keyDup r [c2_old_row])).length ∧
    (save_to_gsheet_merge [c2_old_row] [c2_dup_row, c2_new_row]).2
      = (([c2_dup_row, c2_new_row] : List Transaction).length : Int)
        - (([c2_dup_row, c2_new_row].filter (fun r => keyDup r [c2_old_row])).length : Int) :=
  claim_C2 [c2_old_row] [c2_dup_row, c2_new_row]
    (by unfold keysNodup; decide) (by unfold keysNodup; decide)

end Finanzas
